import Mathlib

/-!
Shallow embedding of the `ps78674/ldapserver` connection/session engine
(`server.go`: `Server.serve`, `Server.Stop`, `Server.ListenAndServe`,
`Server.ListenAndServeTLS`; client part: `client.serve`, `client.close`,
`client.writeMessage`, `responseWriterImpl`, `client.ProcessRequestMessage`).

Stateful Go code is embedded as explicit state passing plus event traces:
each embedded function emits the observable actions (deadline setting,
logging, session spawning, socket writes, channel closes) in the order the
Go statements execute them.  Go channels are embedded as explicit queue
states; closing an already-closed channel is a runtime fault (`GoPanic`).
-/

namespace Ldapserver

/-! ## Accept loop (`Server.serve`) -/

/-- Classification of an error returned by `Listener.Accept`:
`*net.OpError` with `Timeout() == true`, or anything else. -/
inductive AcceptErr
  | timeout
  | other
  deriving DecidableEq, Repr

/-- Observable actions of one iteration of the accept loop in `Server.serve`. -/
inductive ServeEvent
  | setReadDeadline
  | setWriteDeadline
  | logError
  | retryAccept
  | spawnSession
  | stopReturn
  deriving DecidableEq, Repr

/-- Go runtime fault of the accept loop: a method call on the nil
connection interface that both `net` and `tls` listeners return together
with every `Accept` error.  The three dereference sites of `Server.serve`
on that nil value are `rw.SetReadDeadline`, `rw.SetWriteDeadline` and the
`cli.rwc.RemoteAddr()` inside the acceptance log statement. -/
inductive NilDeref
  | setReadDeadlineOnNilConn
  | setWriteDeadlineOnNilConn
  | remoteAddrOnNilConn
  deriving DecidableEq, Repr

/-- Outcome of one or several accept-loop iterations: the actions that
completed, in order, and `some` fault when execution died in a nil-pointer
dereference (which kills the process, so nothing later runs). -/
structure IterOutcome where
  events : List ServeEvent
  fault : Option NilDeref
  deriving DecidableEq, Repr

/-- One iteration of the accept loop of `Server.serve`, after `Accept`
returned with error classification `err` (`none` = successful accept; on
every error the `net`/`tls` listeners return a nil connection).  Mirrors
the Go statement order: the `SetReadDeadline` / `SetWriteDeadline` calls
are guarded only by the configured timeouts and run before the
`err != nil` check, so on a failed accept with a configured timeout they
dereference the nil connection and fault; a timeout-class error with no
timeouts configured hits `continue`; any other error is logged and control
falls through to `newClient`, where the acceptance log's
`cli.rwc.RemoteAddr()` dereferences the nil connection before
`go cli.serve()` is reached. -/
def serveIter (readTimeout writeTimeout : Nat) (err : Option AcceptErr) :
    IterOutcome :=
  let connNil := err.isSome
  if readTimeout ≠ 0 ∧ connNil then
    { events := [], fault := some NilDeref.setReadDeadlineOnNilConn }
  else
    let ev := if readTimeout ≠ 0 then [ServeEvent.setReadDeadline] else []
    if writeTimeout ≠ 0 ∧ connNil then
      { events := ev, fault := some NilDeref.setWriteDeadlineOnNilConn }
    else
      let ev := ev ++ (if writeTimeout ≠ 0 then [ServeEvent.setWriteDeadline] else [])
      match err with
      | some AcceptErr.timeout =>
          { events := ev ++ [ServeEvent.retryAccept], fault := none }
      | some AcceptErr.other =>
          { events := ev ++ [ServeEvent.logError],
            fault := some NilDeref.remoteAddrOnNilConn }
      | none =>
          { events := ev ++ [ServeEvent.spawnSession], fault := none }

/-- Input to one iteration of the accept loop: either the `select` at the
top of the loop observes the closed `chDone` channel, or `Accept` returns
with the given error classification. -/
inductive LoopInput
  | stopSignal
  | accepted (err : Option AcceptErr)
  deriving DecidableEq, Repr

/-- Event trace of the accept loop of `Server.serve` over a sequence of
iteration inputs.  The `stopSignal` case models the `case <-s.chDone`
branch (close the listener and return); otherwise the iteration runs and,
unless it faulted on the nil connection (which kills the process, so the
remaining inputs are never reached), the loop continues. -/
def serveEvents (readTimeout writeTimeout : Nat) :
    List LoopInput → IterOutcome
  | [] => { events := [], fault := none }
  | LoopInput.stopSignal :: _ =>
      { events := [ServeEvent.stopReturn], fault := none }
  | LoopInput.accepted err :: rest =>
      let o := serveIter readTimeout writeTimeout err
      match o.fault with
      | some f => { events := o.events, fault := some f }
      | none =>
          let r := serveEvents readTimeout writeTimeout rest
          { events := o.events ++ r.events, fault := r.fault }

/-- Outcome of `Server.serve`: either the `log.Panicln` fires because no
Handler is registered (before the loop, hence before any accept), or the
accept loop runs producing an event trace with a possible nil-connection
fault. -/
inductive ServeResult
  | panicked
  | ran (outcome : IterOutcome)
  deriving DecidableEq, Repr

/-- Embedding of `Server.serve`: the `s.Handler == nil` check precedes the
accept loop; with no handler registered the function panics without
processing a single iteration input. -/
def serve (handlerSet : Bool) (readTimeout writeTimeout : Nat)
    (ins : List LoopInput) : ServeResult :=
  if handlerSet then
    ServeResult.ran (serveEvents readTimeout writeTimeout ins)
  else
    ServeResult.panicked

/-! ## Listen paths (`ListenAndServe`, `ListenAndServeTLS`) -/

/-- Outcome of a listen entry point: startup failure reported on the error
channel (bind failure, or certificate/key load failure on the TLS path),
or `serve` was entered. -/
inductive StartupOutcome
  | bindError
  | certError
  | served (r : ServeResult)
  deriving DecidableEq, Repr

/-- Embedding of `Server.ListenAndServe`: on bind failure the error is sent
on the channel and the function returns; otherwise `s.serve()` runs. -/
def ListenAndServe (bindOk handlerSet : Bool) (readTimeout writeTimeout : Nat)
    (ins : List LoopInput) : StartupOutcome :=
  if bindOk then
    StartupOutcome.served (serve handlerSet readTimeout writeTimeout ins)
  else
    StartupOutcome.bindError

/-- Address substitution at the top of `Server.ListenAndServeTLS`:
`if addr == "" { addr = ":686" }`. -/
def listenAndServeTLSAddr (addr : String) : String :=
  if addr = "" then ":686" else addr

/-- Embedding of `Server.ListenAndServeTLS`: defaults the empty address,
then loads the certificate pair, then binds the TLS listener, then runs
`s.serve()`.  Returns the address actually used for binding together with
the outcome. -/
def ListenAndServeTLS (addr : String) (certOk bindOk handlerSet : Bool)
    (readTimeout writeTimeout : Nat) (ins : List LoopInput) :
    String × StartupOutcome :=
  let addr := listenAndServeTLSAddr addr
  if certOk then
    if bindOk then
      (addr, StartupOutcome.served (serve handlerSet readTimeout writeTimeout ins))
    else
      (addr, StartupOutcome.bindError)
  else
    (addr, StartupOutcome.certError)

/-! ## Shutdown (`Server.Stop`) -/

/-- Go runtime fault relevant here: `close` of an already-closed channel. -/
inductive GoPanic
  | closeOfClosedChannel
  deriving DecidableEq, Repr

/-- Server shutdown state: whether the broadcast channel `chDone` has been
closed. -/
structure ServerState where
  chDoneClosed : Bool
  deriving DecidableEq, Repr

/-- Embedding of `NewServer`: `chDone` is a freshly made, open channel. -/
def NewServer : ServerState :=
  { chDoneClosed := false }

/-- Embedding of Go `close(ch)` on a broadcast channel: faults when the
channel is already closed, otherwise marks it closed. -/
def closeChan (closed : Bool) : Except GoPanic Bool :=
  if closed then Except.error GoPanic.closeOfClosedChannel else Except.ok true

/-- Observable steps of `Server.Stop`, in execution order. -/
inductive StopEvent
  | closedChDone
  | waitedBarrier
  deriving DecidableEq, Repr

/-- Embedding of `Server.Stop`: `close(s.chDone)` first (faulting if the
channel is already closed, i.e. on a second call), then `s.wg.Wait()`
blocks until the live-session barrier reaches zero. -/
def Stop (s : ServerState) : Except GoPanic (ServerState × List StopEvent) :=
  match closeChan s.chDoneClosed with
  | Except.error p => Except.error p
  | Except.ok _ =>
      Except.ok ({ chDoneClosed := true },
        [StopEvent.closedChDone, StopEvent.waitedBarrier])

/-! ## Protocol messages and read-loop dispatch (`client.serve`) -/

/-- Modelled from the spec: the constant `NoticeOfStartTLS` (the well-known
name/OID of the STARTTLS-class extended operation) is defined in a file of
this repository not present under `src/`; the spec describes it only as a
distinguished well-known name.  The dispatch below compares request names
against this constant, and no claim depends on its concrete value. -/
def NoticeOfStartTLS : String := "1.3.6.1.4.1.1466.20037"

/-- Protocol operations, discriminated exactly as far as `client.serve`
inspects them: an `UnbindRequest`, an `ExtendedRequest` carrying a request
name, or any other operation (bind, search, ...), identified by a tag. -/
inductive ProtocolOp
  | unbindRequest
  | extendedRequest (requestName : String)
  | otherOp (tag : Nat)
  deriving DecidableEq, Repr

/-- Dispatch decision the read loop of `client.serve` takes for one decoded
message: an `UnbindRequest` makes the loop return; an `ExtendedRequest`
whose name equals `NoticeOfStartTLS` is processed synchronously on the
read-loop thread (`c.ProcessRequestMessage(&message)` without `go`, then
`continue`); every other operation is dispatched with
`go c.ProcessRequestMessage(&message)`. -/
inductive Dispatch
  | returnStop
  | syncProcess
  | asyncProcess
  deriving DecidableEq, Repr

/-- Dispatch decision of the read loop for one decoded protocol operation,
following the branch order of `client.serve`. -/
def dispatchOp (op : ProtocolOp) : Dispatch :=
  match op with
  | ProtocolOp.unbindRequest => Dispatch.returnStop
  | ProtocolOp.extendedRequest name =>
      if name = NoticeOfStartTLS then Dispatch.syncProcess
      else Dispatch.asyncProcess
  | ProtocolOp.otherOp _ => Dispatch.asyncProcess

/-- Observable events of the read loop: a message is read and decoded, a
request is processed synchronously on the read-loop thread, a concurrent
handler invocation is spawned, or the loop returns. -/
inductive ReadEvent
  | readMsg (op : ProtocolOp)
  | procSync (op : ProtocolOp)
  | spawnAsync (op : ProtocolOp)
  | loopReturn
  deriving DecidableEq, Repr

/-- Event trace of the read loop of `client.serve` over the sequence of
successfully decoded inbound operations (an empty remainder models the next
read failing: timeout, EOF or I/O error, all of which return).  A
synchronously processed request produces its `procSync` event before any
event of the remaining stream: the transport is not read again until that
processing returns. -/
def readLoop : List ProtocolOp → List ReadEvent
  | [] => [ReadEvent.loopReturn]
  | op :: rest =>
      ReadEvent.readMsg op ::
        match dispatchOp op with
        | Dispatch.returnStop => [ReadEvent.loopReturn]
        | Dispatch.syncProcess => ReadEvent.procSync op :: readLoop rest
        | Dispatch.asyncProcess => ReadEvent.spawnAsync op :: readLoop rest

/-- Operations for which the read loop started a handler invocation
(synchronously or in a goroutine): exactly these lead to
`ProcessRequestMessage`, hence to request registration and to potential
responses. -/
def processedOps : List ReadEvent → List ProtocolOp
  | [] => []
  | ReadEvent.procSync op :: rest => op :: processedOps rest
  | ReadEvent.spawnAsync op :: rest => op :: processedOps rest
  | ReadEvent.readMsg _ :: rest => processedOps rest
  | ReadEvent.loopReturn :: rest => processedOps rest

/-! ## Channels, envelopes, response writer -/

/-- Go buffered channel, embedded as capacity plus current queue content. -/
structure BufChan (α : Type) where
  capacity : Nat
  queue : List α
  deriving DecidableEq, Repr

/-- Whether a send on a Go channel with the given buffer capacity and
current queue length blocks the sender: it does exactly when the buffer is
full (an unbuffered channel, capacity 0, always blocks until rendezvous). -/
def sendWouldBlock (capacity queueLen : Nat) : Bool :=
  decide (capacity ≤ queueLen)

/-- Non-blocking outcome of a send on a buffered channel: `some` of the new
state when a buffer slot is free, `none` when the send would block. -/
def chanSendNb {α : Type} (c : BufChan α) (v : α) : Option (BufChan α) :=
  if c.queue.length < c.capacity then
    some { c with queue := c.queue ++ [v] }
  else
    none

/-- Capacity of the session outbound queue: `c.chanOut` is created by
`make(chan *ldap.LDAPMessage)` with no buffer size, i.e. unbuffered. -/
def chanOutCapacity : Nat := 0

/-- LDAP message envelope, as far as the core inspects it: a message
identifier and one protocol operation. -/
structure LDAPMessage where
  messageID : Int
  protocolOp : ProtocolOp
  deriving DecidableEq, Repr

/-- Embedding of `ldap.NewLDAPMessageWithProtocolOp`: a fresh envelope
around the operation, identifier not yet assigned. -/
def NewLDAPMessageWithProtocolOp (po : ProtocolOp) : LDAPMessage :=
  { messageID := 0, protocolOp := po }

/-- Embedding of `ldap.SetMessageID`: stamps the identifier onto the
envelope. -/
def SetMessageID (m : LDAPMessage) (id : Int) : LDAPMessage :=
  { m with messageID := id }

/-- Embedding of `responseWriterImpl`: the session-assigned request
identifier; the outbound-queue reference is passed explicitly as state. -/
structure responseWriterImpl where
  messageID : Int
  deriving DecidableEq, Repr

namespace responseWriterImpl

/-- Embedding of `responseWriterImpl.Write`: wraps the operation in a fresh
envelope, stamps `w.messageID`, then performs the blocking send on
`chanOut` (the queue state is the list of messages enqueued so far, in
enqueue order). -/
def Write (w : responseWriterImpl) (chanOut : List LDAPMessage)
    (po : ProtocolOp) : List LDAPMessage :=
  let m := NewLDAPMessageWithProtocolOp po
  let m := SetMessageID m w.messageID
  chanOut ++ [m]

/-- Embedding of `responseWriterImpl.WriteMessage`: stamps `w.messageID`
onto the given envelope, then performs the blocking send on `chanOut`. -/
def WriteMessage (w : responseWriterImpl) (chanOut : List LDAPMessage)
    (m : LDAPMessage) : List LDAPMessage :=
  chanOut ++ [SetMessageID m w.messageID]

end responseWriterImpl

/-! ## Request contexts (`client.ProcessRequestMessage`) -/

/-- Embedding of the `Message` request context as
`client.ProcessRequestMessage` constructs it: the decoded envelope and the
`Done` cancellation channel, created by `make(chan bool, 2)`. -/
structure Message where
  ldapMessage : LDAPMessage
  done : BufChan Bool
  deriving DecidableEq, Repr

/-- Result of the setup phase of `client.ProcessRequestMessage`: the
request context it registers, and the `responseWriterImpl` handed to the
handler, whose `messageID` field is `m.MessageID().Int()`. -/
structure ProcessSetup where
  registered : Message
  writer : responseWriterImpl
  deriving DecidableEq, Repr

/-- Embedding of the setup phase of `client.ProcessRequestMessage`: builds
the `Message` with `Done: make(chan bool, 2)`, registers it, and builds the
response writer with the request's own message identifier. -/
def ProcessRequestMessage (message : LDAPMessage) : ProcessSetup :=
  { registered := { ldapMessage := message
                    done := { capacity := 2, queue := [] } }
    writer := { messageID := message.messageID } }

/-! ## Write pump and `client.writeMessage` -/

/-- State of the buffered writer `c.bw` over the connection: whether the
underlying socket currently fails writes, the bufio buffer, and the bytes
flushed to the wire. -/
structure BufWriterState where
  failing : Bool
  buffer : List Int
  wire : List Int
  deriving DecidableEq, Repr

/-- Embedding of `bufio.Writer.Write`: appends to the buffer, or reports an
error on a failing socket.  The error is in the second component; callers
that ignore it model Go code discarding the return values. -/
def bwWrite (st : BufWriterState) (data : List Int) :
    BufWriterState × Option String :=
  if st.failing then (st, some "io error")
  else ({ st with buffer := st.buffer ++ data }, none)

/-- Embedding of `bufio.Writer.Flush`: moves the buffer to the wire, or
reports an error on a failing socket. -/
def bwFlush (st : BufWriterState) : BufWriterState × Option String :=
  if st.failing then (st, some "io error")
  else ({ st with wire := st.wire ++ st.buffer, buffer := [] }, none)

/-- Embedding of `client.writeMessage`: `data, _ := m.Write()` discards the
encode error (an encode failure leaves empty data), then `c.bw.Write` and
`c.bw.Flush` run with their return values discarded.  The function has no
error path: it always returns a writer state and nothing else. -/
def clientWriteMessage (encodeResult : Except String (List Int))
    (st : BufWriterState) : BufWriterState :=
  let data :=
    match encodeResult with
    | Except.ok d => d
    | Except.error _ => []
  let st := (bwWrite st data).1
  let st := (bwFlush st).1
  st

/-- Exit condition of the write pump goroutine: the `for msg := range
c.chanOut` loop ends only when `chanOut` is closed and drained, after which
`close(c.writeDone)` runs. -/
inductive PumpExit
  | chanOutClosedAndDrained
  deriving DecidableEq, Repr

/-- Embedding of the write pump goroutine of `client.serve`: consumes every
message from the outbound queue in order, calling `clientWriteMessage` on
each, and exits (signalling `writeDone`) only when the queue is closed and
drained.  Returns the final writer state, the number of messages handled,
and the exit condition. -/
def writePump (msgs : List (Except String (List Int)))
    (st : BufWriterState) : BufWriterState × Nat × PumpExit :=
  match msgs with
  | [] => (st, 0, PumpExit.chanOutClosedAndDrained)
  | m :: rest =>
      let st1 := clientWriteMessage m st
      let r := writePump rest st1
      (r.1, r.2.1 + 1, r.2.2)

/-! ## Session teardown (`client.close`) -/

/-- Steps of `client.close`, one per Go statement with an observable
effect. -/
inductive CloseStep
  | closeClosing
  | setReadDeadlineImminent
  | abandonSweep
  | waitHandlers
  | closeChanOut
  | waitWriteDone
  | closeConn
  | serverWgDone
  deriving DecidableEq, Repr

/-- Statement order of `client.close`: `close(c.closing)`;
`c.rwc.SetReadDeadline(now + 1ms)`; under `c.mutex`, launch
`request.Abandon()` for every registered request; `c.wg.Wait()`;
`close(c.chanOut)`; `<-c.writeDone`; `c.rwc.Close()`; `c.srv.wg.Done()`. -/
def clientCloseSteps : List CloseStep :=
  [CloseStep.closeClosing, CloseStep.setReadDeadlineImminent,
   CloseStep.abandonSweep, CloseStep.waitHandlers, CloseStep.closeChanOut,
   CloseStep.waitWriteDone, CloseStep.closeConn, CloseStep.serverWgDone]

/-- Socket-level events during teardown, in wire order. -/
inductive WireEvent
  | wrote (m : LDAPMessage)
  | connClosed
  deriving DecidableEq, Repr

/-- Teardown state threaded through the steps of `client.close`. -/
structure CloseState where
  closingClosed : Bool
  deadlineSet : Bool
  abandonPosted : List Int
  handlersDone : Bool
  chanOut : List LDAPMessage
  chanOutClosed : Bool
  wire : List WireEvent
  writeDoneClosed : Bool
  serverNotified : Bool
  deriving DecidableEq, Repr

/-- Effect of one step of `client.close` on the teardown state, given the
identifiers of the still-registered requests.  `waitWriteDone` returns only
after the write pump has drained every message that was in `chanOut` when
it was closed and has observed the closed queue, so by the time the wait
returns those messages are on the wire and `writeDone` is closed;
`closeConn` then puts the connection-close event on the wire after them. -/
def runCloseStep (registered : List Int) (st : CloseState) :
    CloseStep → CloseState
  | CloseStep.closeClosing => { st with closingClosed := true }
  | CloseStep.setReadDeadlineImminent => { st with deadlineSet := true }
  | CloseStep.abandonSweep => { st with abandonPosted := registered }
  | CloseStep.waitHandlers => { st with handlersDone := true }
  | CloseStep.closeChanOut => { st with chanOutClosed := true }
  | CloseStep.waitWriteDone =>
      { st with wire := st.wire ++ st.chanOut.map WireEvent.wrote,
                chanOut := [], writeDoneClosed := true }
  | CloseStep.closeConn => { st with wire := st.wire ++ [WireEvent.connClosed] }
  | CloseStep.serverWgDone => { st with serverNotified := true }

/-- Embedding of `client.close`: runs the teardown steps in statement
order, starting from a session whose registry holds `registered` and whose
outbound queue holds `pending` (the responses enqueued before the queue is
closed; after `c.wg.Wait()` no handler can still enqueue). -/
def clientClose (registered : List Int) (pending : List LDAPMessage) :
    CloseState :=
  clientCloseSteps.foldl (runCloseStep registered)
    { closingClosed := false, deadlineSet := false, abandonPosted := [],
      handlersDone := false, chanOut := pending, chanOutClosed := false,
      wire := [], writeDoneClosed := false, serverNotified := false }

/-! ## Shared helper lemmas -/

/-- Helper: the write pump handles exactly one message per element of the
queue, whatever the writer state (including a failing socket). -/
theorem writePump_count (msgs : List (Except String (List Int)))
    (st : BufWriterState) : (writePump msgs st).2.1 = msgs.length := by
  induction msgs generalizing st with
  | nil => rfl
  | cons m rest ih => simp [writePump, ih]

/-- Helper: `PumpExit` has a single inhabitant. -/
theorem pumpExit_eq (p : PumpExit) : p = PumpExit.chanOutClosedAndDrained := by
  cases p
  rfl

/-! ## Claims -/

/-- Claim C1, counterexample: with a configured read timeout, a
timeout-class accept error does not retry the accept — the deadline call
dereferences the nil connection and faults, with no `retryAccept` event;
and with no timeouts configured, a non-timeout accept error does not log
and continue to the next iteration — after the log the acceptance log's
`RemoteAddr` call faults on the nil connection, so a subsequent successful
accept is never reached and no session is ever spawned. -/
theorem serveIter_error_counterexample :
    (serveIter 1 0 (some AcceptErr.timeout)).fault =
      some NilDeref.setReadDeadlineOnNilConn ∧
    ServeEvent.retryAccept ∉ (serveIter 1 0 (some AcceptErr.timeout)).events ∧
    (serveEvents 0 0 [LoopInput.accepted (some AcceptErr.other),
        LoopInput.accepted none]).fault = some NilDeref.remoteAddrOnNilConn ∧
    ServeEvent.spawnSession ∉ (serveEvents 0 0
        [LoopInput.accepted (some AcceptErr.other),
         LoopInput.accepted none]).events := by
  decide

/-- Claim C1 (amended): since `net`/`tls` listeners return a nil
connection with every accept error, a timeout-class accept error retries
the accept (without creating a session) only when no read/write timeout is
configured; with a configured timeout, any accept error faults in a
nil-pointer dereference at the deadline call, before the error check.  On
any other accept error no session is spawned either, but the loop does not
continue: with no timeouts configured it logs the error and then faults
dereferencing the nil connection (`RemoteAddr`) before the session
goroutine is spawned.  Only on a successful accept are the configured
read/write deadlines applied and a session spawned — `spawnSession` occurs
exactly on success. -/
theorem serve_accept_error_paths (rt wt : Nat) (err : Option AcceptErr) :
    (err = none →
       serveIter rt wt err =
         { events := (if rt ≠ 0 then [ServeEvent.setReadDeadline] else []) ++
             (if wt ≠ 0 then [ServeEvent.setWriteDeadline] else []) ++
             [ServeEvent.spawnSession],
           fault := none }) ∧
    (err = some AcceptErr.timeout → rt = 0 → wt = 0 →
       serveIter rt wt err =
         { events := [ServeEvent.retryAccept], fault := none }) ∧
    (err.isSome = true → rt ≠ 0 →
       serveIter rt wt err =
         { events := [], fault := some NilDeref.setReadDeadlineOnNilConn }) ∧
    (err.isSome = true → rt = 0 → wt ≠ 0 →
       serveIter rt wt err =
         { events := [], fault := some NilDeref.setWriteDeadlineOnNilConn }) ∧
    (err = some AcceptErr.other → rt = 0 → wt = 0 →
       serveIter rt wt err =
         { events := [ServeEvent.logError],
           fault := some NilDeref.remoteAddrOnNilConn }) ∧
    (ServeEvent.spawnSession ∈ (serveIter rt wt err).events ↔ err = none) := by
  refine ⟨?_, ?_, ?_, ?_, ?_, ?_⟩
  · rintro rfl
    by_cases hr : rt = 0 <;> by_cases hw : wt = 0 <;> simp [serveIter, hr, hw]
  · rintro rfl hr hw
    simp [serveIter, hr, hw]
  · intro hs hr
    rcases err with _ | e
    · simp at hs
    · simp [serveIter, hr]
  · intro hs hr hw
    rcases err with _ | e
    · simp at hs
    · simp [serveIter, hr, hw]
  · rintro rfl hr hw
    simp [serveIter, hr, hw]
  · rcases err with _ | e <;> (try cases e) <;>
      by_cases hr : rt = 0 <;> by_cases hw : wt = 0 <;>
        simp [serveIter, hr, hw]

/-- Claim C1, witness for the amended theorem at a concrete input: with no
timeouts configured, a non-timeout accept error logs and then faults on
the nil connection, spawning nothing. -/
theorem serve_accept_error_paths_witness :
    serveIter 0 0 (some AcceptErr.other) =
      { events := [ServeEvent.logError],
        fault := some NilDeref.remoteAddrOnNilConn } :=
  (serve_accept_error_paths 0 0 (some AcceptErr.other)).2.2.2.2.1 rfl rfl rfl

/-- Claim C2: `client.close` performs its steps in the claimed strict
order (closing signal, imminent read deadline, cancellation sweep under
the registry lock, handler barrier wait, outbound-queue close, write-pump
finished wait, connection close, server barrier decrement), and as a
consequence every response that was in the outbound queue when it was
closed appears on the wire, in order, strictly before the connection-close
event. -/
theorem close_order_flushes_before_conn_close (registered : List Int)
    (pending : List LDAPMessage) :
    (List.indexOf CloseStep.closeClosing clientCloseSteps <
       List.indexOf CloseStep.setReadDeadlineImminent clientCloseSteps ∧
     List.indexOf CloseStep.setReadDeadlineImminent clientCloseSteps <
       List.indexOf CloseStep.abandonSweep clientCloseSteps ∧
     List.indexOf CloseStep.abandonSweep clientCloseSteps <
       List.indexOf CloseStep.waitHandlers clientCloseSteps ∧
     List.indexOf CloseStep.waitHandlers clientCloseSteps <
       List.indexOf CloseStep.closeChanOut clientCloseSteps ∧
     List.indexOf CloseStep.closeChanOut clientCloseSteps <
       List.indexOf CloseStep.waitWriteDone clientCloseSteps ∧
     List.indexOf CloseStep.waitWriteDone clientCloseSteps <
       List.indexOf CloseStep.closeConn clientCloseSteps ∧
     List.indexOf CloseStep.closeConn clientCloseSteps <
       List.indexOf CloseStep.serverWgDone clientCloseSteps) ∧
    (clientClose registered pending).wire =
      pending.map WireEvent.wrote ++ [WireEvent.connClosed] ∧
    (clientClose registered pending).abandonPosted = registered ∧
    (clientClose registered pending).handlersDone = true ∧
    (clientClose registered pending).chanOutClosed = true ∧
    (clientClose registered pending).writeDoneClosed = true ∧
    (clientClose registered pending).serverNotified = true := by
  exact ⟨by decide, rfl, rfl, rfl, rfl, rfl, rfl⟩

/-- Claim C3, counterexample: on a fresh server the first `Stop` closes
the broadcast signal and waits on the barrier, but a second `Stop` (on the
resulting state, with the signal already closed) faults with a
close-of-closed-channel panic — refuting "a second call to Stop() does not
close the signal again or fault". -/
theorem stop_second_call_faults :
    Stop NewServer =
      Except.ok ({ chDoneClosed := true },
        [StopEvent.closedChDone, StopEvent.waitedBarrier]) ∧
    Stop { chDoneClosed := true } =
      Except.error GoPanic.closeOfClosedChannel := by
  exact ⟨rfl, rfl⟩

/-- Claim C3 (amended): the first call to `Stop` closes the shutdown
broadcast signal and then blocks on the session barrier until zero; the
code has no idempotence guard, so a second call to `Stop` faults with a
close-of-closed-channel panic instead of being a no-op. -/
theorem stop_first_closes_second_faults (s : ServerState) :
    (s.chDoneClosed = false →
       Stop s = Except.ok ({ chDoneClosed := true },
         [StopEvent.closedChDone, StopEvent.waitedBarrier])) ∧
    (s.chDoneClosed = true →
       Stop s = Except.error GoPanic.closeOfClosedChannel) := by
  cases s with
  | mk c => cases c <;> simp [Stop, closeChan]

/-- Claim C3, witness for the amended theorem at the fresh server. -/
theorem stop_first_closes_second_faults_witness :
    Stop NewServer =
      Except.ok ({ chDoneClosed := true },
        [StopEvent.closedChDone, StopEvent.waitedBarrier]) :=
  (stop_first_closes_second_faults NewServer).1 rfl

/-- Claim C4: a STARTTLS-class extended request is processed synchronously
on the read-loop thread — its `procSync` event precedes every event of the
remaining stream, and no goroutine-spawn event is emitted for it — while
every other non-unbind request is dispatched to its own concurrent handler
invocation (`spawnAsync`). -/
theorem starttls_sync_other_async (op : ProtocolOp) (rest : List ProtocolOp) :
    (op = ProtocolOp.extendedRequest NoticeOfStartTLS →
       readLoop (op :: rest) =
         ReadEvent.readMsg op :: ReadEvent.procSync op :: readLoop rest) ∧
    (op ≠ ProtocolOp.unbindRequest →
       (∀ name, op = ProtocolOp.extendedRequest name →
          name ≠ NoticeOfStartTLS) →
       readLoop (op :: rest) =
         ReadEvent.readMsg op :: ReadEvent.spawnAsync op :: readLoop rest) := by
  constructor
  · rintro rfl
    simp [readLoop, dispatchOp]
  · intro hub hext
    cases op with
    | unbindRequest => exact absurd rfl hub
    | extendedRequest name =>
        have hne := hext name rfl
        simp [readLoop, dispatchOp, hne]
    | otherOp t => simp [readLoop, dispatchOp]

/-- Claim C4, witness at a concrete STARTTLS request. -/
theorem starttls_sync_other_async_witness :
    readLoop [ProtocolOp.extendedRequest NoticeOfStartTLS] =
      [ReadEvent.readMsg (ProtocolOp.extendedRequest NoticeOfStartTLS),
       ReadEvent.procSync (ProtocolOp.extendedRequest NoticeOfStartTLS),
       ReadEvent.loopReturn] :=
  (starttls_sync_other_async (ProtocolOp.extendedRequest NoticeOfStartTLS)
    []).1 rfl

/-- Claim C5: the response writer built by `ProcessRequestMessage` carries
the owning request's message identifier; both `Write` and `WriteMessage`
stamp that identifier onto the outgoing envelope before enqueueing it on
the outbound queue; and the enqueue is a blocking send (the outbound queue
is unbuffered, so a send blocks at every queue length). -/
theorem response_writer_stamps_id_blocking_send (message : LDAPMessage)
    (chanOut : List LDAPMessage) (po : ProtocolOp) (m : LDAPMessage) :
    (ProcessRequestMessage message).writer.messageID = message.messageID ∧
    (ProcessRequestMessage message).writer.Write chanOut po =
      chanOut ++ [{ messageID := message.messageID, protocolOp := po }] ∧
    (ProcessRequestMessage message).writer.WriteMessage chanOut m =
      chanOut ++ [{ m with messageID := message.messageID }] ∧
    sendWouldBlock chanOutCapacity chanOut.length = true := by
  refine ⟨rfl, rfl, rfl, ?_⟩
  simp [sendWouldBlock, chanOutCapacity]

/-- Claim C6: the cancellation channel of every request context built by
`ProcessRequestMessage` has capacity 2 (at least two independent signals),
and posting two successive signals to it — one for client abandon, one for
server-initiated shutdown — both complete without blocking the poster. -/
theorem done_channel_capacity_two (message : LDAPMessage)
    (abandonSig shutdownSig : Bool) :
    2 ≤ (ProcessRequestMessage message).registered.done.capacity ∧
    (((chanSendNb (ProcessRequestMessage message).registered.done
        abandonSig).bind
      (fun c => chanSendNb c shutdownSig)).isSome = true) := by
  exact ⟨le_refl 2, rfl⟩

/-- Claim C7: on a decoded unbind request the read loop returns
immediately: the trace is exactly the read of the unbind followed by the
loop return — the rest of the stream is never read, no handler invocation
is started for the unbind or afterwards (so no request context is
registered and no response is produced from this point on). -/
theorem unbind_returns_immediately (rest : List ProtocolOp) :
    readLoop (ProtocolOp.unbindRequest :: rest) =
      [ReadEvent.readMsg ProtocolOp.unbindRequest, ReadEvent.loopReturn] ∧
    processedOps (readLoop (ProtocolOp.unbindRequest :: rest)) = [] := by
  constructor <;> simp [readLoop, dispatchOp, processedOps]

/-- Claim C8, counterexample: called with the empty address,
`ListenAndServeTLS` binds to ":686", which is not the conventional LDAPS
port ":636" the claim states. -/
theorem tls_default_addr_counterexample :
    (ListenAndServeTLS "" true true true 0 0 []).1 = ":686" ∧
    (ListenAndServeTLS "" true true true 0 0 []).1 ≠ ":636" := by
  exact ⟨rfl, by decide⟩

/-- Claim C8 (amended): when `ListenAndServeTLS` is invoked with an empty
address string it substitutes ":686" (a non-standard port, not the
conventional LDAPS port 636) as the listen address before binding; a
non-empty address is used unchanged. -/
theorem tls_empty_addr_binds_686 (addr : String)
    (certOk bindOk handlerSet : Bool) (rt wt : Nat) (ins : List LoopInput) :
    (addr = "" →
       (ListenAndServeTLS addr certOk bindOk handlerSet rt wt ins).1 =
         ":686") ∧
    (addr ≠ "" →
       (ListenAndServeTLS addr certOk bindOk handlerSet rt wt ins).1 =
         addr) := by
  constructor <;> intro h <;>
    cases certOk <;> cases bindOk <;>
      simp [ListenAndServeTLS, listenAndServeTLSAddr, h]

/-- Claim C8, witness for the amended theorem at the empty address. -/
theorem tls_empty_addr_binds_686_witness :
    (ListenAndServeTLS "" true true true 0 0 []).1 = ":686" :=
  (tls_empty_addr_binds_686 "" true true true 0 0 []).1 rfl

/-- Claim C9: with no Handler registered, `serve` panics before processing
a single accept-loop input (the result carries no accept events and is the
same for every input sequence), and both listen paths — plain and TLS —
reach that panic once their startup steps succeed. -/
theorem serve_no_handler_panics (addr : String) (rt wt : Nat)
    (ins : List LoopInput) :
    serve false rt wt ins = ServeResult.panicked ∧
    ListenAndServe true false rt wt ins =
      StartupOutcome.served ServeResult.panicked ∧
    (ListenAndServeTLS addr true true false rt wt ins).2 =
      StartupOutcome.served ServeResult.panicked := by
  exact ⟨rfl, rfl, rfl⟩

/-- Claim C10: `client.writeMessage` discards the encode error (an encode
failure behaves exactly like an empty successful encode), discards the
buffered write and flush errors (on a failing socket the writer state is
returned unchanged, with no error surfaced), and the write pump handles
every message of the outbound queue — also with a failing socket — exiting
only when the queue is closed and drained. -/
theorem write_errors_discarded_pump_drains
    (msgs : List (Except String (List Int))) (st : BufWriterState)
    (e : String) (encodeResult : Except String (List Int)) :
    (writePump msgs st).2.1 = msgs.length ∧
    (writePump msgs st).2.2 = PumpExit.chanOutClosedAndDrained ∧
    clientWriteMessage (Except.error e) st =
      clientWriteMessage (Except.ok []) st ∧
    clientWriteMessage encodeResult { st with failing := true } =
      { st with failing := true } ∧
    (writePump msgs { st with failing := true }).2.1 = msgs.length := by
  exact ⟨writePump_count msgs st, pumpExit_eq _, rfl, rfl,
    writePump_count msgs _⟩

end Ldapserver
